import Mathlib

/-!
Verification of the download-orchestration core of the
`telegram-auto-downloader` repository against its natural-language
specification.  The Python source under `src/backend/` is shallowly
embedded: job records and sparse store updates become Lean structures,
each straight-line effectful code path becomes a list of `Action`s in
source order, and the callback/loop bodies become explicit state-passing
functions.  Floating-point quantities are modelled as rationals;
wall-clock instants as rationals (seconds); timestamps that no claim
inspects (`created_at` orderings aside) are carried as ISO strings.
-/

namespace TGDL

/- The Batteries rational primitives are `[irreducible]`, which blocks
`decide` on concrete rational arithmetic; restore the default
reducibility for this development so concrete counterexamples and
witnesses evaluate. -/
attribute [local semireducible] Rat.inv Rat.mul Rat.add Rat.sub

/-- A job record, mirroring the columns of the `downloads` table that the
backend reads and writes (`backend/database/__init__.py`, class `Download`).
`message_id` is the external identifier (a decimal Telegram id or a UUID),
always a string, as in the schema.  `created_at` is the ISO timestamp
string produced by `to_dict`. -/
structure Job where
  id : Nat
  message_id : String
  file : String
  status : String
  progress : ℚ
  speed : ℚ
  error : Option String
  downloaded_bytes : Int
  total_bytes : Int
  pending_time : Option ℚ
  created_at : String
  is_deleted : Bool
  downloaded_from : String
  url : Option String
  file_deleted : Bool
deriving DecidableEq, Repr

/-- A sparse update, mirroring the keyword arguments passed to
`DatabaseManager.update_download_by_id` / `update_download_by_message_id`:
only the fields present in the call are written (`setattr` per kwarg).
`error := some none` models passing `error=None` explicitly.
The `updated_at` timestamp writes are not modelled. -/
structure Patch where
  status : Option String := none
  progress : Option ℚ := none
  speed : Option ℚ := none
  error : Option (Option String) := none
  downloaded_bytes : Option Int := none
  total_bytes : Option Int := none
  pending_time : Option (Option ℚ) := none
  file : Option String := none
  file_deleted : Option Bool := none
deriving DecidableEq, Repr

/-- Applying a sparse update to a record: present fields overwrite, absent
fields are kept (the `for key, value in kwargs.items(): setattr(...)` loop
of the update methods). -/
def applyPatch (j : Job) (p : Patch) : Job :=
  { j with
    status := p.status.getD j.status
    progress := p.progress.getD j.progress
    speed := p.speed.getD j.speed
    error := p.error.getD j.error
    downloaded_bytes := p.downloaded_bytes.getD j.downloaded_bytes
    total_bytes := p.total_bytes.getD j.total_bytes
    pending_time := p.pending_time.getD j.pending_time
    file := p.file.getD j.file
    file_deleted := p.file_deleted.getD j.file_deleted }

/-- One observable effect of a worker or endpoint code path, in program
order: a store write (`db.update_download_by_*`), a socket emission
(`emit_progress` / `emit_status` / `emit_new_download` / deletion), or the
re-launch of a URL download task. -/
inductive Action where
  | store (p : Patch)
  | emitStatus (s : String) (error : Option String)
  | emitProgress (progress : ℚ) (downloaded total : Int) (speed : ℚ)
      (pending : Option ℚ)
  | emitNew
  | emitDeleted
  | startDownload (url : String) (message_id : String)
deriving DecidableEq, Repr

/-- Equality on `Except` is decidable componentwise (needed to `decide`
concrete callback results). -/
def exceptDecEq {ε α : Type} [DecidableEq ε] [DecidableEq α] :
    (a b : Except ε α) → Decidable (a = b)
  | .error x, .error y =>
    if h : x = y then isTrue (by rw [h])
    else isFalse (fun hc => h (by cases hc; rfl))
  | .error _, .ok _ => isFalse (fun hc => by cases hc)
  | .ok _, .error _ => isFalse (fun hc => by cases hc)
  | .ok x, .ok y =>
    if h : x = y then isTrue (by rw [h])
    else isFalse (fun hc => h (by cases hc; rfl))

instance {ε α : Type} [DecidableEq ε] [DecidableEq α] :
    DecidableEq (Except ε α) := exceptDecEq

/-- Floor of a rational, computed on the normalized representation
(denominator positive), kernel-reducible. -/
def ratFloor (q : ℚ) : ℤ := Int.fdiv q.num (q.den : ℤ)

/-- Python's `round(x, 1)`: round to one decimal, ties to even (modelled on
exact rationals; binary-float artefacts are out of scope). -/
def round1 (q : ℚ) : ℚ :=
  let x := q * 10
  let f : ℤ := ratFloor x
  let frac := x - (f : ℚ)
  let r : ℤ :=
    if frac < 1/2 then f
    else if 1/2 < frac then f + 1
    else if f % 2 = 0 then f else f + 1
  (r : ℚ) / 10

/-! ## Chat download worker (`backend/telegram_handler/__init__.py`) -/

/-- The mutable nonlocal state captured by `safe_download`'s
`progress_callback`: `last_bytes`, `start_time` (wall clock, seconds).
The message-edit throttle (`last_update`, 20 s) is side-channel only and
not modelled. -/
structure CallbackState where
  last_bytes : Int
  start_time : ℚ
deriving DecidableEq, Repr

/-- `safe_download.progress_callback(current, total)` (lines 149-190):
computes speed from the byte delta and wall-clock delta, advances the
nonlocal state, then computes `progress = round(current / total * 100, 1)`
— with no guard on `total = 0`, where Python raises `ZeroDivisionError`
(the state mutations precede the division, so they survive).  On success
it returns the sparse store patch written by
`db.update_download_by_message_id` together with the progress-emission
payload fields. -/
def progressCallback (st : CallbackState) (now : ℚ) (current total : Int) :
    CallbackState × Except String Patch :=
  let delta := now - st.start_time
  let speed : ℚ :=
    if delta > 0 then round1 (((current - st.last_bytes : Int) : ℚ) / 1024 / delta)
    else 0
  let st2 : CallbackState := { last_bytes := current, start_time := now }
  if total = 0 then (st2, .error "ZeroDivisionError")
  else
    let progress := round1 ((current : ℚ) / (total : ℚ) * 100)
    let pending_time : Option ℚ :=
      if speed > 0 then some (((total - current : Int) : ℚ) / (speed * 1024))
      else none
    (st2, .ok
      { progress := some progress
        downloaded_bytes := some current
        total_bytes := some total
        speed := some speed
        pending_time := some pending_time })

/-- `TelegramDownloader.emit_progress` (lines 51-71): the producer-side
1-second throttle over the shared `last_broadcast` clock.  Returns whether
the event is emitted and the new `last_broadcast`. -/
def telegramEmitThrottle (last_broadcast now : ℚ) : Bool × ℚ :=
  if now - last_broadcast ≥ 1 then (true, now) else (false, last_broadcast)

/-- `MAX_RETRIES` from `backend/config/__init__.py` (default `6`). -/
def MAX_RETRIES : Nat := 6

/-- Patch written by `safe_download` on successful completion
(lines 195-201). -/
def telegramDonePatch : Patch :=
  { status := some "done", progress := some 100, speed := some 0
    pending_time := some (some 0) }

/-- Patch written by `safe_download` on `asyncio.CancelledError`
(line 212). -/
def telegramStoppedPatch : Patch :=
  { status := some "stopped", speed := some 0 }

/-- Patch written by `safe_download` when all retries are exhausted
(line 225). -/
def telegramFailedPatch : Patch :=
  { status := some "failed", speed := some 0, pending_time := some none }

/-- The per-attempt error text `f"Attempt {attempt}/{MAX_RETRIES} failed:
{str(e)}"` (line 219). -/
def attemptErrorMsg (attempt : Nat) (e : String) : String :=
  s!"Attempt {attempt}/{MAX_RETRIES} failed: {e}"

/-- Patch written on a per-attempt exception (line 220): only the `error`
column. -/
def attemptErrorPatch (attempt : Nat) (e : String) : Patch :=
  { error := some (some (attemptErrorMsg attempt e)) }

/-- What one `await event.download_media(...)` attempt does, as seen by the
retry loop of `safe_download`: returns normally, is cancelled, or raises
(any exception, including one thrown out of `progress_callback`). -/
inductive AttemptOutcome where
  | success
  | cancelled
  | error (e : String)
deriving DecidableEq, Repr

/-- The retry loop of `safe_download` (lines 144-229), linearized to its
store writes and status emissions.  `fuel` is the number of attempts still
allowed (`MAX_RETRIES` at the top); `attempt` is the 1-based attempt
counter of `for attempt in range(1, MAX_RETRIES + 1)`.  A successful
attempt writes the done patch and emits `done`; a cancelled attempt writes
the stopped patch and emits `stopped`; an exception records the attempt
error and continues; exhaustion writes the failed patch and emits
`failed`. -/
def safeDownloadGo (outcomes : Nat → AttemptOutcome) :
    Nat → Nat → List Action
  | 0, _ => [.store telegramFailedPatch, .emitStatus "failed" none]
  | fuel + 1, attempt =>
    match outcomes attempt with
    | .success => [.store telegramDonePatch, .emitStatus "done" none]
    | .cancelled => [.store telegramStoppedPatch, .emitStatus "stopped" none]
    | .error e =>
        .store (attemptErrorPatch attempt e) ::
          safeDownloadGo outcomes fuel (attempt + 1)

/-- `safe_download`'s full terminal trace, given the outcome of each
attempt. -/
def safeDownload (outcomes : Nat → AttemptOutcome) : List Action :=
  safeDownloadGo outcomes MAX_RETRIES 1

/-- Whether a single attempt raises, as a function of the callback
invocations `(now, current, total)` the chat capability performs during
it: the attempt dies as soon as one `progress_callback` call raises
(division by zero on `total = 0`). -/
def attemptRaises (st : CallbackState) : List (ℚ × Int × Int) → Bool
  | [] => false
  | (now, current, total) :: rest =>
    match progressCallback st now current total with
    | (st2, .ok _) => attemptRaises st2 rest
    | (_, .error _) => true

/-! ## URL download worker (`backend/ytdlp_handler/__init__.py`) -/

/-- Patch written when the subprocess exits 0 or a line reports the file
as already downloaded (lines 359-365 and 373-379). -/
def ytdlpDonePatch : Patch :=
  { status := some "done", progress := some 100, speed := some 0
    pending_time := some (some 0) }

/-- Patch written when the subprocess exits nonzero (lines 383-388):
status `failed`, speed 0, and the constant error text `'Download
failed'`. -/
def ytdlpFailedPatch : Patch :=
  { status := some "failed", speed := some 0
    error := some (some "Download failed") }

/-- Patch written on `asyncio.CancelledError` (line 402). -/
def ytdlpStoppedPatch : Patch :=
  { status := some "stopped", speed := some 0 }

/-- Patch written in the generic exception handler (lines 408-413). -/
def ytdlpExceptionPatch (e : String) : Patch :=
  { status := some "failed", speed := some 0, error := some (some e) }

/-- The exit-code inspection after `await process.wait()` (lines 369-390):
`returncode == 0` writes the done patch and emits `done`; any other exit
code — including negative codes, which is how asyncio reports
termination by SIGTERM (-15) or SIGKILL (-9) — writes the failed patch
(constant error `'Download failed'`) and emits `failed`.  The stored
status is not consulted. -/
def ytdlpCompletionTrace (returncode : Int) : List Action :=
  if returncode = 0 then [.store ytdlpDonePatch, .emitStatus "done" none]
  else [.store ytdlpFailedPatch, .emitStatus "failed" (some "Download failed")]

/-- Trace of the `asyncio.CancelledError` handler (lines 392-403). -/
def ytdlpCancelledTrace : List Action :=
  [.store ytdlpStoppedPatch, .emitStatus "stopped" none]

/-- Trace of the generic exception handler (lines 404-414). -/
def ytdlpExceptionTrace (e : String) : List Action :=
  [.store (ytdlpExceptionPatch e), .emitStatus "failed" (some e)]

/-- Result of `parse_progress` on one output line: a regular progress
parse (with the converted byte counts) or the completion marker
(`'[download] 100%'` literal or `'has already been downloaded'`).  The
tolerant regex itself is not re-implemented; the loop body below is
modelled as a function of this parse result. -/
inductive ParsedProgress where
  | info (progress : ℚ) (downloaded total : Int) (speed : ℚ)
      (pending : Option ℚ)
  | complete
deriving DecidableEq, Repr

/-- The classification of one decoded subprocess line, as tested by the
loop body: the `parse_progress` result, whether the line is a
`[download] Destination:` line (with the extracted basename), and whether
it contains `has already been downloaded`. -/
structure YtdlpLine where
  parsed : Option ParsedProgress
  isDestination : Bool
  destName : String
  alreadyDownloaded : Bool
deriving DecidableEq, Repr

/-- Store patch of a throttled progress write in the URL worker
(lines 333-340); the `pending_time` kwarg is always passed (possibly
`None`), so the column is always written. -/
def ytdlpProgressPatch (progress : ℚ) (downloaded total : Int) (speed : ℚ)
    (pending : Option ℚ) : Patch :=
  { progress := some progress, downloaded_bytes := some downloaded
    total_bytes := some total, speed := some speed
    pending_time := some pending }

/-- One iteration of the URL worker's line loop (lines 312-367), given the
throttle state `last_update`, the wall clock `now` and the classified
line.  Returns the new `last_update`, the actions performed, and whether
the coroutine returns (the already-downloaded shortcut).  Faithful
details: the 1-second throttle gates the store write and the emission
together; a throttle-admitted `complete` parse result executes `continue`,
skipping the Destination and already-downloaded checks of that same line;
the already-downloaded branch writes `done` to the store before emitting
`status(done)` and then returns. -/
def ytdlpLoopStep (last_update now : ℚ) (line : YtdlpLine) :
    ℚ × List Action × Bool :=
  let parsedPart : ℚ × List Action × Bool :=
    match line.parsed with
    | none => (last_update, [], false)
    | some pi =>
      if now - last_update ≥ 1 then
        match pi with
        | .complete => (now, [], true)
        | .info p d t s pt =>
            (now, [.store (ytdlpProgressPatch p d t s pt),
                   .emitProgress p d t s pt], false)
      else (last_update, [], false)
  let lu := parsedPart.1
  let acts1 := parsedPart.2.1
  let skipRest := parsedPart.2.2
  if skipRest then (lu, acts1, false)
  else
    let acts2 : List Action :=
      if line.isDestination then [.store { file := some line.destName }] else []
    let acts3 : List Action :=
      if line.alreadyDownloaded then
        [.store ytdlpDonePatch, .emitStatus "done" none]
      else []
    (lu, acts1 ++ acts2 ++ acts3, line.alreadyDownloaded)

/-! ## Job store (`backend/database/__init__.py`) -/

/-- `session.query(Download).filter_by(id=...).first()`. -/
def findById (db : List Job) (i : Nat) : Option Job :=
  db.find? (fun j => j.id == i)

/-- `session.query(Download).filter_by(message_id=...).first()`. -/
def findByMessageId (db : List Job) (mid : String) : Option Job :=
  db.find? (fun j => j.message_id == mid)

/-- `DatabaseManager.update_download_by_id`: update the first row with the
given id, no-op when absent. -/
def updateById : List Job → Nat → Patch → List Job
  | [], _, _ => []
  | j :: rest, i, p =>
    if j.id == i then applyPatch j p :: rest
    else j :: updateById rest i p

/-- `DatabaseManager.update_download_by_message_id`: update the first row
with the given message id, no-op when absent. -/
def updateByMessageId : List Job → String → Patch → List Job
  | [], _, _ => []
  | j :: rest, mid, p =>
    if j.message_id == mid then applyPatch j p :: rest
    else j :: updateByMessageId rest mid p

/-! ## Control surface (`backend/web_app/__init__.py`) -/

/-- Patch written by the `/api/stop` endpoint (line 330). -/
def apiStopPatch : Patch := { status := some "stopped", speed := some 0 }

/-- Store effect of `/api/stop` (lines 304-332): unconditionally write
`status='stopped', speed=0` to the row with the given message id. -/
def apiStopDb (db : List Job) (mid : String) : List Job :=
  updateByMessageId db mid apiStopPatch

/-- Action trace of `/api/stop`: the store write precedes the
`status(stopped)` emission; the JSON response is always
`{"status": "stopped"}`. -/
def apiStopTrace : List Action :=
  [.store apiStopPatch, .emitStatus "stopped" none]

/-- `/api/stop`'s response body (`status` field), always the same. -/
def apiStopResponse : String := "stopped"

/-- Patch written by `/api/retry` for a URL job (lines 275-281): status
back to `downloading`, speed 0, error cleared; `progress` is not among
the kwargs, so it is preserved. -/
def retryUrlPatch : Patch :=
  { status := some "downloading", speed := some 0, error := some none }

/-- Patch written by `/api/retry` for a chat job (lines 292-299): status
`downloading` with `progress=0`. -/
def retryChatPatch : Patch :=
  { status := some "downloading", progress := some 0, speed := some 0
    error := some none }

/-- Result of one `/api/retry` call: the store after the call, the
actions performed, and the JSON `status` response field. -/
structure RetryResult where
  db : List Job
  actions : List Action
  response : String
deriving DecidableEq, Repr

/-- The chat-job branch of `/api/retry` (lines 290-301): write the chat
retry patch and emit `status(downloading)` when the stored `message_id`
is truthy. -/
def apiRetryChatBranch (db : List Job) (download_id : Nat) (d : Job) :
    RetryResult :=
  ⟨updateById db download_id retryChatPatch,
   .store retryChatPatch ::
     (if d.message_id ≠ "" then [.emitStatus "downloading" none] else []),
   "ok"⟩

/-- `/api/retry` (lines 259-302).  `ytdlpAvailable` / `loopAvailable`
model the `self.ytdlp_downloader and self.event_loop` guards (both are
injected at startup in `backend/main.py`).  The endpoint looks the job up
by numeric id; only a job whose status is `failed` or `stopped` is
mutated; a URL job (truthy stored URL) keeps its progress and relaunches
`ytdlp_downloader.download(url, message_id)` with the stored URL and
message id; a chat job resets progress to 0 and emits
`status(downloading)` when its `message_id` is truthy.  The response is
`{"status": "ok"}` in every case. -/
def apiRetry (ytdlpAvailable loopAvailable : Bool) (db : List Job)
    (download_id : Nat) : RetryResult :=
  match findById db download_id with
  | none => ⟨db, [], "ok"⟩
  | some d =>
    if d.status = "failed" ∨ d.status = "stopped" then
      match d.url with
      | some u =>
        if u ≠ "" && ytdlpAvailable && loopAvailable then
          ⟨updateById db download_id retryUrlPatch,
           [.store retryUrlPatch, .emitStatus "downloading" none,
            .startDownload u d.message_id], "ok"⟩
        else apiRetryChatBranch db download_id d
      | none => apiRetryChatBranch db download_id d
    else ⟨db, [], "ok"⟩

/-! ## Filenames -/

/-- Filename choice of the chat intake
(`TelegramDownloader._handle_new_file`, line 241):
`event.file.name or <timestamp>` — the suggested name is used verbatim
when truthy; there is no sanitization on this path. -/
def telegramPickFilename (suggested : Option String) (timestamp : String) :
    String :=
  match suggested with
  | some s => if s = "" then timestamp else s
  | none => timestamp

/-- Initial filename of a URL job (`YtdlpDownloader.start_download`,
lines 436-440): `title` + optional `-resolution` + `.` + (`ext` or
`mp4`), unsanitized. -/
def ytdlpInitialFilename (title : String) (resolution ext : Option String) :
    String :=
  let e := match ext with
    | some x => if x = "" then "mp4" else x
    | none => "mp4"
  match resolution with
  | some r =>
    if r ≠ "" ∧ r ≠ "best" then title ++ "-" ++ r ++ "." ++ e
    else title ++ "." ++ e
  | none => title ++ "." ++ e

/-- The characters removed by `re.sub(r'[<>:"/\\|?*]', '', title)` in
`backend/browser_downloader.py` (line 95). -/
def invalidFilenameChars : List Char :=
  ['<', '>', ':', '\"', '/', '\\', '|', '?', '*']

/-- Python `str.strip()` on a character list: drop whitespace from both
ends. -/
def pyStrip (l : List Char) : List Char :=
  ((l.dropWhile Char.isWhitespace).reverse.dropWhile Char.isWhitespace).reverse

/-- Title sanitization of the browser fallback downloader
(`BrowserDownloader.get_video_info`, lines 95-96): strip the invalid
filename characters, strip surrounding whitespace, truncate to 100
characters. -/
def sanitizeTitle (t : String) : String :=
  String.mk
    ((pyStrip (t.toList.filter (fun c => !invalidFilenameChars.contains c))).take 100)

/-! ## Listing (`WebApp.get_downloads_data`, lines 81-139) -/

/-- A row of `download_type_maps` (class `DownloadTypeMap`): the routing
entry for a source tag.  `is_secured` is the access-restricted flag. -/
structure Mapping where
  id : Nat
  downloaded_from : String
  is_secured : Bool
  folder : Option String
  quality : Option String
deriving DecidableEq, Repr

/-- `DatabaseManager.get_secured_mapping_ids` (lines 467-474). -/
def getSecuredMappingIds (mappings : List Mapping) : List Nat :=
  (mappings.filter (fun m => m.is_secured)).map (fun m => m.id)

/-- The `mapping_by_id` dict built on line 101: Python dict comprehension
keeps the last mapping for a duplicated id, hence lookup on the reversed
list. -/
def mappingById (mappings : List Mapping) (mid : Nat) : Option Mapping :=
  mappings.reverse.find? (fun m => m.id == mid)

/-- `prefixOfChars a b` decides whether `a` is a leading segment of
`b`. -/
def prefixOfChars : List Char → List Char → Bool
  | [], _ => true
  | _ :: _, [] => false
  | a :: as, b :: bs => a == b && prefixOfChars as bs

/-- Python's `needle in haystack` on strings, over character lists. -/
def containsSub (needle : List Char) : List Char → Bool
  | [] => needle.isEmpty
  | c :: rest => prefixOfChars needle (c :: rest) || containsSub needle rest

/-- Python's `str.lower()`, modelled on the character list (ASCII case
folding; wider Unicode folding is out of scope). -/
def pyLower (s : String) : String := String.mk (s.toList.map Char.toLower)

/-- Lexicographic comparison of character lists by code point — Python's
string `<=`. -/
def listCharLe : List Char → List Char → Bool
  | [], _ => true
  | _ :: _, [] => false
  | a :: as, b :: bs => if a = b then listCharLe as bs else decide (a < b)

/-- Python string `<=`. -/
def strLe (a b : String) : Bool := listCharLe a.toList b.toList

/-- Insert an element into a sorted list, before the first element it
compares `le` to — a stable insertion. -/
def insertLe (le : Job → Job → Bool) (a : Job) : List Job → List Job
  | [] => [a]
  | b :: bs => if le a b then a :: b :: bs else b :: insertLe le a bs

/-- Stable insertion sort, modelling Python's stable `sorted`. -/
def sortLe (le : Job → Job → Bool) : List Job → List Job
  | [] => []
  | a :: as => insertLe le a (sortLe le as)

/-- Comparison used by `sorted(key=..., reverse=...)` for a string key:
with `reverse=True` the key order flips while equal keys stay stable. -/
def keyLeStr (rev : Bool) (key : Job → String) (a b : Job) : Bool :=
  if rev then strLe (key b) (key a) else strLe (key a) (key b)

/-- Same for a rational (`progress`) key. -/
def keyLeQ (rev : Bool) (key : Job → ℚ) (a b : Job) : Bool :=
  if rev then decide (key b ≤ key a) else decide (key a ≤ key b)

/-- The sort dispatch of `get_downloads_data` (lines 116-126): one of the
four recognized keys, otherwise the list is left in store order.
`created_at` uses `x.get("created_at") or ""` (the empty string already
stands for an absent timestamp in the model), `file` compares the
lowercased filename, `progress` the percentage. -/
def sortDownloads (sort_by : String) (rev : Bool) (l : List Job) :
    List Job :=
  if sort_by = "created_at" then
    sortLe (keyLeStr rev (fun x => x.created_at)) l
  else if sort_by = "file" then
    sortLe (keyLeStr rev (fun x => pyLower x.file)) l
  else if sort_by = "status" then
    sortLe (keyLeStr rev (fun x => x.status)) l
  else if sort_by = "progress" then
    sortLe (keyLeQ rev (fun x => x.progress)) l
  else l

/-- Lines 98-102: the excluded source tags, resolved from the supplied
mapping ids through `mapping_by_id`; `if exclude_mapping_ids:` makes both
`None` and the empty list resolve to no exclusions. -/
def codeExcludedSources (mappings : List Mapping)
    (exclude_mapping_ids : Option (List Nat)) : List String :=
  match exclude_mapping_ids with
  | none => []
  | some ids =>
    if ids = [] then []
    else ids.filterMap
      (fun mid => Option.map Mapping.downloaded_from (mappingById mappings mid))

/-- Lines 104-105: the case-insensitive filename substring filter,
skipped entirely when the lowered query is empty. -/
def searchFilterCode (search : String) (l : List Job) : List Job :=
  let query := pyLower search
  if query = "" then l
  else l.filter (fun d => containsSub query.toList (pyLower d.file).toList)

/-- Lines 108-109: drop jobs whose source tag is excluded; skipped when
there are no exclusions. -/
def exclusionFilterCode (excluded : List String) (l : List Job) :
    List Job :=
  if excluded = [] then l
  else l.filter (fun d => !excluded.contains d.downloaded_from)

/-- Lines 112-113: `filter=active` keeps jobs whose status is not
`done`; anything else (`all`) keeps everything. -/
def statusFilterCode (filter_type : String) (l : List Job) : List Job :=
  if filter_type = "active" then l.filter (fun d => !(d.status == "done"))
  else l

/-- The value returned by `get_downloads_data`. -/
structure ListResult where
  downloads : List Job
  has_more : Bool
  total : Nat
deriving DecidableEq, Repr

/-- The pre-pagination list of `get_downloads_data`: search filter, then
exclusion filter, then status filter, then sort — in the code's order. -/
def codeFilteredSorted (all_downloads : List Job) (mappings : List Mapping)
    (search filter_type sort_by sort_order : String)
    (exclude_mapping_ids : Option (List Nat)) : List Job :=
  sortDownloads sort_by (sort_order = "desc")
    (statusFilterCode filter_type
      (exclusionFilterCode (codeExcludedSources mappings exclude_mapping_ids)
        (searchFilterCode search all_downloads)))

/-- `WebApp.get_downloads_data` (lines 81-139) over the non-deleted rows
`all_downloads` (as returned by `get_all_downloads`, in store order):
the filtered and sorted list, `[offset : offset+limit]` slicing, `total`
as the count before pagination, `has_more` as
`offset + limit < total`. -/
def getDownloadsData (all_downloads : List Job) (mappings : List Mapping)
    (search filter_type sort_by sort_order : String) (limit offset : Nat)
    (exclude_mapping_ids : Option (List Nat)) : ListResult :=
  ⟨((codeFilteredSorted all_downloads mappings search filter_type sort_by
      sort_order exclude_mapping_ids).drop offset).take limit,
   decide (offset + limit < (codeFilteredSorted all_downloads mappings search
      filter_type sort_by sort_order exclude_mapping_ids).length),
   (codeFilteredSorted all_downloads mappings search filter_type sort_by
      sort_order exclude_mapping_ids).length⟩

/-- The excluded source tags as the specification words it: resolved from
the supplied routing-entry ids (no extra guard; an absent parameter means
no exclusions). -/
def specExcludedSources (mappings : List Mapping)
    (exclude_mapping_ids : Option (List Nat)) : List String :=
  match exclude_mapping_ids with
  | none => []
  | some ids => ids.filterMap
      (fun mid => Option.map Mapping.downloaded_from (mappingById mappings mid))

/-- The pre-pagination list as the specification orders it (§4.A / claim
C6): exclusion-by-source **first**, then the case-insensitive substring
match on the filename, then the status filter (`active` = status ≠ done,
`all` = no filter), then the sort. -/
def specFilteredSorted (all_downloads : List Job) (mappings : List Mapping)
    (search filter_type sort_by sort_order : String)
    (exclude_mapping_ids : Option (List Nat)) : List Job :=
  sortDownloads sort_by (sort_order = "desc")
    (statusFilterCode filter_type
      ((all_downloads.filter (fun d =>
          !(specExcludedSources mappings exclude_mapping_ids).contains
            d.downloaded_from)).filter
        (fun d => containsSub (pyLower search).toList (pyLower d.file).toList)))

/-- The list operation as the specification words it, written for
refinement comparison with `getDownloadsData`: the spec-ordered filtered
and sorted list, then offset/limit; `total` is the post-filter
pre-pagination count and `has_more` holds exactly when
`offset + limit < total`. -/
def specListPipeline (all_downloads : List Job) (mappings : List Mapping)
    (search filter_type sort_by sort_order : String) (limit offset : Nat)
    (exclude_mapping_ids : Option (List Nat)) : ListResult :=
  ⟨((specFilteredSorted all_downloads mappings search filter_type sort_by
      sort_order exclude_mapping_ids).drop offset).take limit,
   decide (offset + limit < (specFilteredSorted all_downloads mappings search
      filter_type sort_by sort_order exclude_mapping_ids).length),
   (specFilteredSorted all_downloads mappings search filter_type sort_by
      sort_order exclude_mapping_ids).length⟩

/-! ## Trace projections and sample data -/

/-- The three terminal statuses. -/
def terminalStatuses : List String := ["done", "failed", "stopped"]

/-- The statuses written to the store along a trace, in order. -/
def storedStatuses (tr : List Action) : List String :=
  tr.filterMap fun a => match a with
    | .store p => p.status
    | _ => none

/-- The status the store holds at the end of a trace (if the trace wrote
one). -/
def finalStoredStatus (tr : List Action) : Option String :=
  (storedStatuses tr).getLast?

/-- `storePrecedesEmit written tr` holds when every terminal-status
emission in `tr` is preceded (within `tr`, or by `written`) by a store
write of that same status. -/
def storePrecedesEmit (written : List String) : List Action → Bool
  | [] => true
  | .store p :: rest =>
    storePrecedesEmit
      ((match p.status with | some s => [s] | none => []) ++ written) rest
  | .emitStatus s _ :: rest =>
    (!(terminalStatuses.contains s) || written.contains s) &&
      storePrecedesEmit written rest
  | _ :: rest => storePrecedesEmit written rest

/-- Every store patch written by the code that carries a `status` field
(both workers, the already-downloaded shortcut, the stop endpoint and the
retry endpoint), with the free error text and attempt number
abstracted. -/
def statusPatches (e : String) (attempt : Nat) : List Patch :=
  [telegramDonePatch, telegramStoppedPatch, telegramFailedPatch,
   attemptErrorPatch attempt e, ytdlpDonePatch, ytdlpFailedPatch,
   ytdlpStoppedPatch, ytdlpExceptionPatch e, apiStopPatch, retryUrlPatch,
   retryChatPatch]

/-- A chat job mid-download, used as concrete test data. -/
def sampleChatJob : Job :=
  { id := 1, message_id := "12345", file := "clip.mp4"
    status := "downloading", progress := 50, speed := 0, error := none
    downloaded_bytes := 500, total_bytes := 1000, pending_time := none
    created_at := "2024-01-01T00:00:00", is_deleted := false
    downloaded_from := "telegram", url := none, file_deleted := false }

/-- A failed URL job, used as concrete test data. -/
def sampleUrlJob : Job :=
  { id := 2, message_id := "aaaa-bbbb", file := "video.mp4"
    status := "failed", progress := 40, speed := 0, error := some "boom"
    downloaded_bytes := 400, total_bytes := 1000, pending_time := none
    created_at := "2024-01-02T00:00:00", is_deleted := false
    downloaded_from := "youtube", url := some "https://youtube.com/w"
    file_deleted := false }

/-- A stopped chat job, used as concrete test data. -/
def sampleStoppedChatJob : Job :=
  { id := 3, message_id := "777", file := "doc.pdf", status := "stopped"
    progress := 10, speed := 0, error := none, downloaded_bytes := 100
    total_bytes := 1000, pending_time := none
    created_at := "2024-01-03T00:00:00", is_deleted := false
    downloaded_from := "telegram", url := none, file_deleted := false }

/-! ## Claims -/

/-- C1 (counterexample).  The claim `progress = 100 ↔ status = done within
the same update` fails on the code: the chat worker's progress callback,
invoked with `current = total = 1000` one second into the download,
produces a store patch carrying `progress = 100` and **no** status field;
applied to a job that is `downloading`, the durable record then reads
`progress = 100` while `status = 'downloading'`. -/
theorem c1_counterexample :
    (progressCallback ⟨0, 0⟩ 1 1000 1000).2 =
      .ok { progress := some 100, downloaded_bytes := some 1000
            total_bytes := some 1000, speed := some 1
            pending_time := some (some 0) } ∧
    (applyPatch sampleChatJob
      { progress := some 100, downloaded_bytes := some 1000
        total_bytes := some 1000, speed := some 1
        pending_time := some (some 0) }).progress = 100 ∧
    (applyPatch sampleChatJob
      { progress := some 100, downloaded_bytes := some 1000
        total_bytes := some 1000, speed := some 1
        pending_time := some (some 0) }).status = "downloading" :=
  ⟨by decide, by decide, by decide⟩

/-- C1 (amended).  Only the forward direction of the claimed invariant
holds: every store patch in the code that sets `status = done` also sets
`progress = 100` (and `speed = 0`) in the same update; but a progress
update may carry `progress = 100` while leaving the status field — hence
a `downloading` status — untouched, as the counterexample shows. -/
theorem c1_amended : ∀ (e : String) (attempt : Nat), ∀ p ∈ statusPatches e attempt,
    ∀ j : Job, p.status = some "done" →
      (applyPatch j p).progress = 100 ∧ (applyPatch j p).status = "done" ∧
      (applyPatch j p).speed = 0 := by
  intro e attempt p hp j hdone
  simp only [statusPatches, List.mem_cons, List.not_mem_nil, or_false] at hp
  rcases hp with rfl | rfl | rfl | rfl | rfl | rfl | rfl | rfl | rfl | rfl | rfl <;>
    simp_all [telegramDonePatch, telegramStoppedPatch, telegramFailedPatch,
      attemptErrorPatch, ytdlpDonePatch, ytdlpFailedPatch, ytdlpStoppedPatch,
      ytdlpExceptionPatch, apiStopPatch, retryUrlPatch, retryChatPatch,
      applyPatch]

/-- C1 (witness): the amended statement applied to the chat worker's
completion patch on a concrete job. -/
theorem c1_amended_witness :
    (applyPatch sampleChatJob telegramDonePatch).progress = 100 ∧
    (applyPatch sampleChatJob telegramDonePatch).status = "done" ∧
    (applyPatch sampleChatJob telegramDonePatch).speed = 0 :=
  c1_amended "x" 1 telegramDonePatch (by decide) sampleChatJob (by decide)

/-- C2 (counterexample).  The claim says termination by SIGTERM leaves
whatever status the cancellation path wrote.  On the code, a subprocess
exit code of `-15` (SIGTERM) falls into the generic nonzero branch: the
worker overwrites the status with `failed` and the constant error text
`'Download failed'` (not the last output line), without consulting the
stored status. -/
theorem c2_counterexample :
    storedStatuses (ytdlpCompletionTrace (-15)) = ["failed"] ∧
    ytdlpCompletionTrace (-15) =
      [.store ytdlpFailedPatch,
       .emitStatus "failed" (some "Download failed")] :=
  ⟨by decide, by decide⟩

/-- C2 (amended).  On subprocess exit the URL worker inspects only the
exit code: `0` writes `done` (with `progress = 100`, `speed = 0`); every
other exit code — signal terminations (−15, −9) included — writes
`failed` with the constant error text `'Download failed'`, regardless of
the stored status, and the trace is identical for all nonzero codes. -/
theorem c2_amended : ∀ rc : Int,
    (rc = 0 → ytdlpCompletionTrace rc =
      [.store ytdlpDonePatch, .emitStatus "done" none]) ∧
    (rc ≠ 0 → ytdlpCompletionTrace rc =
      [.store ytdlpFailedPatch,
       .emitStatus "failed" (some "Download failed")]) ∧
    ytdlpDonePatch.progress = some 100 ∧ ytdlpDonePatch.speed = some 0 ∧
    ytdlpFailedPatch.status = some "failed" ∧
    ytdlpFailedPatch.error = some (some "Download failed") := by
  intro rc
  refine ⟨fun h => ?_, fun h => ?_, by decide, by decide, by decide, by decide⟩
  · simp [ytdlpCompletionTrace, h]
  · simp [ytdlpCompletionTrace, h]

/-- C2 (witness): the amended statement at the concrete exit codes 5
and 0. -/
theorem c2_amended_witness :
    ytdlpCompletionTrace 5 =
      [.store ytdlpFailedPatch,
       .emitStatus "failed" (some "Download failed")] ∧
    ytdlpCompletionTrace 0 =
      [.store ytdlpDonePatch, .emitStatus "done" none] :=
  ⟨(c2_amended 5).2.1 (by decide), (c2_amended 0).1 rfl⟩

/-- Stripping never adds characters. -/
theorem pyStrip_subset (l : List Char) : pyStrip l ⊆ l := by
  intro c hc
  unfold pyStrip at hc
  have h1 := List.dropWhile_subset (p := Char.isWhitespace)
    (l := (l.dropWhile Char.isWhitespace).reverse)
  have h2 := List.dropWhile_subset (p := Char.isWhitespace) (l := l)
  have hc2 := List.mem_reverse.mp hc
  have hc3 := h1 hc2
  have hc4 := List.mem_reverse.mp hc3
  exact h2 hc4

/-- C7 (counterexample).  The claim says every suggested name or extractor
title is sanitized before the worker opens the file.  On the code, the
chat intake (`_handle_new_file`) uses `event.file.name` verbatim, so a
suggested name `bad<name>.mp4` is stored and used on disk with the
disallowed `<` intact; likewise the URL intake builds
`title-resolution.ext` verbatim, so a title containing `/` survives into
the stored filename. -/
theorem c7_counterexample :
    telegramPickFilename (some "bad<name>.mp4") "20240101_000000" =
      "bad<name>.mp4" ∧
    (telegramPickFilename (some "bad<name>.mp4")
      "20240101_000000").toList.contains '<' = true ∧
    ytdlpInitialFilename "a/b" none none = "a/b.mp4" ∧
    (ytdlpInitialFilename "a/b" none none).toList.contains '/' = true :=
  ⟨by decide, by decide, by decide, by decide⟩

/-- C7 (amended).  Neither the chat intake nor the URL intake sanitizes:
a truthy suggested name is used verbatim.  The
`strip <>:"/\|?* and trim to ≤ 100` rule exists only in the browser
fallback downloader's title handling (`browser_downloader.py`), where it
does produce a name free of the disallowed characters and of length at
most 100. -/
theorem c7_amended :
    (∀ s ts : String, s ≠ "" → telegramPickFilename (some s) ts = s) ∧
    (∀ t : String, (sanitizeTitle t).length ≤ 100 ∧
      ∀ c ∈ (sanitizeTitle t).toList, c ∉ invalidFilenameChars) := by
  constructor
  · intro s ts hs
    simp [telegramPickFilename, hs]
  · intro t
    constructor
    · show (String.mk _).length ≤ 100
      calc (String.mk ((pyStrip
              (t.toList.filter (fun c => !invalidFilenameChars.contains c))).take
                100)).length
          = ((pyStrip (t.toList.filter
              (fun c => !invalidFilenameChars.contains c))).take 100).length := rfl
        _ ≤ 100 := by
            exact le_trans (List.length_take_le _ _) le_rfl
    · intro c hc
      have hc1 : c ∈ (pyStrip (t.toList.filter
          (fun c => !invalidFilenameChars.contains c))).take 100 := hc
      have hc2 := List.take_subset 100 _ hc1
      have hc3 := pyStrip_subset _ hc2
      have hc4 := List.mem_filter.mp hc3
      intro hbad
      have := hc4.2
      simp [hbad] at this

/-- C7 (witness): the amended statement at a concrete suggested name. -/
theorem c7_amended_witness :
    telegramPickFilename (some "clip.mp4") "20240101_000000" = "clip.mp4" :=
  c7_amended.1 "clip.mp4" "20240101_000000" (by decide)

/-- Updating by message id and then looking the same message id up finds
the patched row (the patch never changes `message_id`). -/
theorem findByMessageId_updateByMessageId (db : List Job) (mid : String)
    (p : Patch) :
    findByMessageId (updateByMessageId db mid p) mid =
      (findByMessageId db mid).map (fun d => applyPatch d p) := by
  induction db with
  | nil => rfl
  | cons j rest ih =>
    cases hb : (j.message_id == mid) with
    | true =>
      have hid : ((applyPatch j p).message_id == mid) = true := hb
      simp [updateByMessageId, findByMessageId, hb, hid, List.find?]
    | false =>
      have hid : ((applyPatch j p).message_id == mid) = false := hb
      simp only [findByMessageId] at ih
      simp [updateByMessageId, findByMessageId, hb, hid, List.find?, ih]

/-- C9 (confirmed).  `/api/stop` is idempotent: the store effect of a
second call equals that of the first, the endpoint's JSON status is the
constant `"stopped"` on every call, and after a stop the stored row (when
the message id exists) has `status = 'stopped'` and `speed = 0`. -/
theorem c9_confirmed :
    (∀ db mid, apiStopDb (apiStopDb db mid) mid = apiStopDb db mid) ∧
    apiStopResponse = "stopped" ∧
    (∀ db mid j, findByMessageId (apiStopDb db mid) mid = some j →
      j.status = "stopped" ∧ j.speed = 0) := by
  refine ⟨fun db mid => ?_, rfl, fun db mid j hfind => ?_⟩
  · induction db with
    | nil => rfl
    | cons a rest ih =>
      cases hb : (a.message_id == mid) with
      | true =>
        have hid : ((applyPatch a apiStopPatch).message_id == mid) = true := hb
        simp only [apiStopDb, updateByMessageId, hb, hid, if_true]
        rfl
      | false =>
        simp only [apiStopDb] at ih
        simp only [apiStopDb, updateByMessageId, hb, Bool.false_eq_true,
          if_false, ih]
  · rw [apiStopDb, findByMessageId_updateByMessageId] at hfind
    cases hbase : findByMessageId db mid with
    | none => rw [hbase] at hfind; cases hfind
    | some d =>
      rw [hbase] at hfind
      have hj : applyPatch d apiStopPatch = j := by simpa using hfind
      subst hj
      constructor <;> rfl

/-- C9 (witness): stopping a concrete one-row store twice. -/
theorem c9_confirmed_witness :
    apiStopDb (apiStopDb [sampleChatJob] "12345") "12345" =
      apiStopDb [sampleChatJob] "12345" ∧
    (applyPatch sampleChatJob apiStopPatch).status = "stopped" ∧
    (applyPatch sampleChatJob apiStopPatch).speed = 0 :=
  ⟨c9_confirmed.1 [sampleChatJob] "12345",
   c9_confirmed.2.2 [sampleChatJob] "12345" (applyPatch sampleChatJob apiStopPatch)
     (by decide)⟩

/-- The retry loop ends `failed` when every attempt raises: helper
induction over the remaining fuel. -/
theorem safeDownloadGo_all_errors (outcomes : Nat → AttemptOutcome)
    (h : ∀ i, ∃ e, outcomes i = .error e) :
    ∀ fuel attempt, finalStoredStatus (safeDownloadGo outcomes fuel attempt) =
      some "failed" := by
  intro fuel
  induction fuel with
  | zero =>
    intro attempt
    simp [safeDownloadGo, finalStoredStatus, storedStatuses,
      telegramFailedPatch]
  | succ n ih =>
    intro attempt
    obtain ⟨e, he⟩ := h attempt
    simp only [safeDownloadGo, he]
    simpa [finalStoredStatus, storedStatuses, attemptErrorPatch]
      using ih (attempt + 1)

/-- C10 (confirmed).  The chat worker's progress callback computes
`current / total * 100` with no guard on `total = 0`, so every callback
invocation reporting `total = 0` raises `ZeroDivisionError`; an attempt
during which any callback reports `total = 0` therefore raises; and a
retry loop all of whose attempts raise writes `status = 'failed'` as the
final stored status (after `MAX_RETRIES` recorded attempt errors). -/
theorem c10_confirmed :
    (∀ (st : CallbackState) (now : ℚ) (current : Int),
      (progressCallback st now current 0).2 = .error "ZeroDivisionError") ∧
    (∀ (st : CallbackState) (calls : List (ℚ × Int × Int)), calls ≠ [] →
      (∀ c ∈ calls, c.2.2 = 0) → attemptRaises st calls = true) ∧
    (∀ outcomes : Nat → AttemptOutcome, (∀ i, ∃ e, outcomes i = .error e) →
      finalStoredStatus (safeDownload outcomes) = some "failed") := by
  refine ⟨fun st now current => ?_, fun st calls hne hz => ?_, fun o h => ?_⟩
  · simp [progressCallback]
  · cases calls with
    | nil => exact absurd rfl hne
    | cons c rest =>
      obtain ⟨now, current, total⟩ := c
      have h0 : total = 0 := hz (now, current, total) (List.mem_cons_self _ _)
      subst h0
      simp [attemptRaises, progressCallback]
  · exact safeDownloadGo_all_errors o h MAX_RETRIES 1

/-- C10 (witness): a concrete zero-total callback schedule and a retry
loop whose six attempts all raise. -/
theorem c10_confirmed_witness :
    attemptRaises ⟨0, 0⟩ [(1, 100, 0)] = true ∧
    finalStoredStatus (safeDownload (fun _ => .error "division by zero")) =
      some "failed" :=
  ⟨c10_confirmed.2.1 ⟨0, 0⟩ [(1, 100, 0)] (by decide) (by decide),
   c10_confirmed.2.2 (fun _ => .error "division by zero")
     (fun _ => ⟨"division by zero", rfl⟩)⟩

/-- C3 (counterexample).  The claim says store updates are never skipped
by the 1-second throttle.  In the URL worker, a progress line arriving
half a second after the previous admitted update performs **no** store
write at all (the throttle gates the `db.update` together with the
emission): the loop step leaves the state unchanged and performs no
action. -/
theorem c3_counterexample :
    ytdlpLoopStep 0 (1/2)
      ⟨some (.info 50 500 1000 100 (some 5)), false, "", false⟩ =
      (0, [], false) := by decide

/-- C3 (amended).  The chat worker writes the store on every successful
callback (unthrottled) and throttles only the emission to ≥ 1 s — with no
exemption for a final 100% callback.  The URL worker gates the store
write and the emission together behind the same ≥ 1 s throttle, and a
throttle-admitted `complete` (100%) parse result emits nothing at all.
Terminal status transitions are emitted unthrottled on every completion
path. -/
theorem c3_amended :
    (∀ (st : CallbackState) (now : ℚ) (current total : Int), total ≠ 0 →
      ∃ p : Patch, (progressCallback st now current total).2 = .ok p ∧
        p.progress.isSome = true ∧ p.downloaded_bytes = some current ∧
        p.total_bytes = some total) ∧
    (∀ lb now : ℚ, (telegramEmitThrottle lb now).1 = decide (now - lb ≥ 1)) ∧
    (∀ (lu now : ℚ) (p : ℚ) (d t : Int) (s : ℚ) (pt : Option ℚ),
      ytdlpLoopStep lu now ⟨some (.info p d t s pt), false, "", false⟩ =
        if now - lu ≥ 1 then
          (now, [.store (ytdlpProgressPatch p d t s pt),
                 .emitProgress p d t s pt], false)
        else (lu, [], false)) ∧
    (∀ lu now : ℚ,
      ytdlpLoopStep lu now ⟨some .complete, false, "", false⟩ =
        if now - lu ≥ 1 then (now, [], false) else (lu, [], false)) ∧
    (∀ rc : Int, (ytdlpCompletionTrace rc).any
      (fun a => match a with | .emitStatus _ _ => true | _ => false) = true) := by
  refine ⟨fun st now current total h => ?_, fun lb now => ?_,
    fun lu now p d t s pt => ?_, fun lu now => ?_, fun rc => ?_⟩
  · simp only [progressCallback, if_neg h]
    exact ⟨_, rfl, rfl, rfl, rfl⟩
  · by_cases h : now - lb ≥ 1 <;> simp [telegramEmitThrottle, h]
  · by_cases h : now - lu ≥ 1 <;> simp [ytdlpLoopStep, h]
  · by_cases h : now - lu ≥ 1 <;> simp [ytdlpLoopStep, h]
  · by_cases h : rc = 0 <;> simp [ytdlpCompletionTrace, h]

/-- C3 (witness): the amended statement at a concrete callback and
concrete clocks on both sides of the throttle. -/
theorem c3_amended_witness :
    (∃ p : Patch, (progressCallback ⟨0, 0⟩ 1 500 1000).2 = .ok p ∧
      p.progress.isSome = true ∧ p.downloaded_bytes = some 500 ∧
      p.total_bytes = some 1000) ∧
    ytdlpLoopStep 0 2 ⟨some (.info 50 500 1000 100 (some 5)), false, "", false⟩ =
      (2, [.store (ytdlpProgressPatch 50 500 1000 100 (some 5)),
           .emitProgress 50 500 1000 100 (some 5)], false) := by
  constructor
  · exact c3_amended.1 ⟨0, 0⟩ 1 500 1000 (by decide)
  · have h := c3_amended.2.2.1 0 2 50 500 1000 100 (some 5)
    rw [h]
    decide

/-- C4 helper: the retry loop's trace always stores a terminal status
before emitting it, for any starting attempt and any prefix of already
written statuses. -/
theorem storePrecedesEmit_safeDownloadGo (outcomes : Nat → AttemptOutcome) :
    ∀ fuel attempt written,
      storePrecedesEmit written (safeDownloadGo outcomes fuel attempt) = true := by
  intro fuel
  induction fuel with
  | zero =>
    intro attempt written
    simp [safeDownloadGo, storePrecedesEmit, telegramFailedPatch,
      terminalStatuses]
  | succ n ih =>
    intro attempt written
    cases h : outcomes attempt with
    | success =>
      simp [safeDownloadGo, h, storePrecedesEmit, telegramDonePatch,
        terminalStatuses]
    | cancelled =>
      simp [safeDownloadGo, h, storePrecedesEmit, telegramStoppedPatch,
        terminalStatuses]
    | error e =>
      simp only [safeDownloadGo, h]
      simpa [storePrecedesEmit, attemptErrorPatch] using ih (attempt + 1) written

/-- C4 (confirmed).  On every terminal code path — both completion
branches of the URL worker, its cancellation and exception handlers, the
already-downloaded shortcut inside the line loop, every outcome of the
chat worker's retry loop, and the stop endpoint — the durable store
update that writes the terminal status precedes the corresponding status
emission in program order. -/
theorem c4_confirmed :
    (∀ rc : Int, storePrecedesEmit [] (ytdlpCompletionTrace rc) = true) ∧
    (∀ e : String, storePrecedesEmit [] (ytdlpExceptionTrace e) = true) ∧
    storePrecedesEmit [] ytdlpCancelledTrace = true ∧
    storePrecedesEmit [] apiStopTrace = true ∧
    (∀ (lu now : ℚ) (line : YtdlpLine),
      storePrecedesEmit [] (ytdlpLoopStep lu now line).2.1 = true) ∧
    (∀ outcomes : Nat → AttemptOutcome,
      storePrecedesEmit [] (safeDownload outcomes) = true) := by
  refine ⟨fun rc => ?_, fun e => ?_, by decide, by decide,
    fun lu now line => ?_, fun outcomes => ?_⟩
  · by_cases h : rc = 0 <;>
      simp [ytdlpCompletionTrace, h, storePrecedesEmit, ytdlpDonePatch,
        ytdlpFailedPatch, terminalStatuses]
  · simp [ytdlpExceptionTrace, storePrecedesEmit, ytdlpExceptionPatch,
      terminalStatuses]
  · obtain ⟨parsed, isDest, destName, already⟩ := line
    cases parsed with
    | none =>
      cases isDest <;> cases already <;>
        simp [ytdlpLoopStep, storePrecedesEmit, ytdlpDonePatch,
          terminalStatuses]
    | some pi =>
      cases pi with
      | complete =>
        by_cases h : now - lu ≥ 1 <;> cases isDest <;> cases already <;>
          simp [ytdlpLoopStep, h, storePrecedesEmit, ytdlpDonePatch,
            terminalStatuses]
      | info p d t s pt =>
        by_cases h : now - lu ≥ 1 <;> cases isDest <;> cases already <;>
          simp [ytdlpLoopStep, h, storePrecedesEmit, ytdlpDonePatch,
            ytdlpProgressPatch, terminalStatuses]
  · exact storePrecedesEmit_safeDownloadGo outcomes MAX_RETRIES 1 []

/-- C4 (witness): the completion branch at exit code 0. -/
theorem c4_confirmed_witness :
    storePrecedesEmit [] (ytdlpCompletionTrace 0) = true :=
  c4_confirmed.1 0

/-- Updating by id and then looking the same id up finds the patched row
(the patch never changes `id`). -/
theorem findById_updateById (db : List Job) (i : Nat) (p : Patch) :
    findById (updateById db i p) i =
      (findById db i).map (fun d => applyPatch d p) := by
  induction db with
  | nil => rfl
  | cons j rest ih =>
    cases hb : (j.id == i) with
    | true =>
      have hid : ((applyPatch j p).id == i) = true := hb
      simp [updateById, findById, hb, hid, List.find?]
    | false =>
      have hid : ((applyPatch j p).id == i) = false := hb
      simp only [findById] at ih
      simp [updateById, findById, hb, hid, List.find?, ih]

/-- C5 (confirmed).  `/api/retry` mutates a job only when its current
status is `failed` or `stopped` (an unknown id or any other status is a
no-op that still answers `ok`).  For a URL job (truthy stored URL, with
the downloader and loop available as they are in deployment) it writes
`status = downloading` while leaving `progress` untouched and re-invokes
the URL download with the stored URL and the same message id; for a chat
job it writes `status = downloading` with `progress = 0` and emits
`status(downloading)`. -/
theorem c5_confirmed :
    (∀ db i, findById db i = none → apiRetry true true db i = ⟨db, [], "ok"⟩) ∧
    (∀ db i d, findById db i = some d → d.status ≠ "failed" →
      d.status ≠ "stopped" → apiRetry true true db i = ⟨db, [], "ok"⟩) ∧
    (∀ db i d u, findById db i = some d →
      (d.status = "failed" ∨ d.status = "stopped") → d.url = some u →
      u ≠ "" →
      (apiRetry true true db i).response = "ok" ∧
      (apiRetry true true db i).actions =
        [.store retryUrlPatch, .emitStatus "downloading" none,
         .startDownload u d.message_id] ∧
      findById (apiRetry true true db i).db i =
        some (applyPatch d retryUrlPatch) ∧
      (applyPatch d retryUrlPatch).progress = d.progress ∧
      (applyPatch d retryUrlPatch).status = "downloading") ∧
    (∀ db i d, findById db i = some d →
      (d.status = "failed" ∨ d.status = "stopped") → d.url = none →
      d.message_id ≠ "" →
      (apiRetry true true db i).response = "ok" ∧
      (apiRetry true true db i).actions =
        [.store retryChatPatch, .emitStatus "downloading" none] ∧
      findById (apiRetry true true db i).db i =
        some (applyPatch d retryChatPatch) ∧
      (applyPatch d retryChatPatch).progress = 0 ∧
      (applyPatch d retryChatPatch).status = "downloading") := by
  refine ⟨fun db i hnone => ?_, fun db i d hfind h1 h2 => ?_,
    fun db i d u hfind hst hurl hu => ?_, fun db i d hfind hst hurl hmid => ?_⟩
  · simp [apiRetry, hnone]
  · have hcond : ¬ (d.status = "failed" ∨ d.status = "stopped") := by
      intro hc; cases hc with
      | inl h => exact h1 h
      | inr h => exact h2 h
    simp [apiRetry, hfind, hcond]
  · refine ⟨?_, ?_, ?_, ?_, ?_⟩
    · simp [apiRetry, hfind, hst, hurl, hu]
    · simp [apiRetry, hfind, hst, hurl, hu]
    · simp [apiRetry, hfind, hst, hurl, hu, findById_updateById]
    · simp [applyPatch, retryUrlPatch]
    · simp [applyPatch, retryUrlPatch]
  · refine ⟨?_, ?_, ?_, ?_, ?_⟩
    · simp [apiRetry, hfind, hst, hurl, apiRetryChatBranch]
    · simp [apiRetry, hfind, hst, hurl, apiRetryChatBranch, hmid]
    · simp [apiRetry, hfind, hst, hurl, apiRetryChatBranch,
        findById_updateById]
    · simp [applyPatch, retryChatPatch]
    · simp [applyPatch, retryChatPatch]

/-- C5 (witness): retrying a concrete failed URL job and a concrete
stopped chat job. -/
theorem c5_confirmed_witness :
    (apiRetry true true [sampleUrlJob] 2).actions =
      [.store retryUrlPatch, .emitStatus "downloading" none,
       .startDownload "https://youtube.com/w" "aaaa-bbbb"] ∧
    (apiRetry true true [sampleStoppedChatJob] 3).actions =
      [.store retryChatPatch, .emitStatus "downloading" none] :=
  ⟨(c5_confirmed.2.2.1 [sampleUrlJob] 2 sampleUrlJob "https://youtube.com/w"
      (by decide) (Or.inl (by decide)) (by decide) (by decide)).2.1,
   (c5_confirmed.2.2.2 [sampleStoppedChatJob] 3 sampleStoppedChatJob
      (by decide) (Or.inr (by decide)) (by decide) (by decide)).2.1⟩

/-- The empty needle is a substring of everything (Python `"" in s`). -/
theorem containsSub_nil (l : List Char) : containsSub [] l = true := by
  cases l <;> simp [containsSub, prefixOfChars]

/-- Two filters commute. -/
theorem filter_swap {α : Type} (p q : α → Bool) (l : List α) :
    (l.filter p).filter q = (l.filter q).filter p := by
  induction l with
  | nil => rfl
  | cons a t ih =>
    cases hp : p a <;> cases hq : q a <;>
      simp [List.filter_cons, hp, hq, ih]

/-- The conditional search filter equals the unconditional one: when the
query is empty the substring test accepts every row. -/
theorem searchFilterCode_eq (search : String) (l : List Job) :
    searchFilterCode search l =
      l.filter (fun d =>
        containsSub (pyLower search).toList (pyLower d.file).toList) := by
  unfold searchFilterCode
  by_cases hq : pyLower search = ""
  · rw [if_pos hq, hq]
    exact (List.filter_eq_self.mpr (fun a _ => containsSub_nil _)).symm
  · rw [if_neg hq]

/-- The conditional exclusion filter equals the unconditional one: an
empty exclusion list excludes nothing. -/
theorem exclusionFilterCode_eq (ex : List String) (l : List Job) :
    exclusionFilterCode ex l =
      l.filter (fun d => !ex.contains d.downloaded_from) := by
  unfold exclusionFilterCode
  by_cases hex : ex = []
  · subst hex
    exact (List.filter_eq_self.mpr (fun a _ => rfl)).symm
  · rw [if_neg hex]

/-- The guarded resolution of excluded sources equals the spec's direct
resolution. -/
theorem codeExcludedSources_eq (mappings : List Mapping)
    (ids : Option (List Nat)) :
    codeExcludedSources mappings ids = specExcludedSources mappings ids := by
  cases ids with
  | none => rfl
  | some l =>
    by_cases hl : l = []
    · subst hl; simp [codeExcludedSources, specExcludedSources]
    · simp [codeExcludedSources, specExcludedSources, hl]

/-- The code's pre-pagination list equals the spec-ordered one: the
search and exclusion filters commute, and the guarded forms equal the
unconditional ones. -/
theorem codeFilteredSorted_eq_spec (all : List Job) (mappings : List Mapping)
    (search ft sb so : String) (ids : Option (List Nat)) :
    codeFilteredSorted all mappings search ft sb so ids =
      specFilteredSorted all mappings search ft sb so ids := by
  unfold codeFilteredSorted specFilteredSorted
  rw [codeExcludedSources_eq, searchFilterCode_eq, exclusionFilterCode_eq,
    filter_swap]

/-- C6 (confirmed).  The listing applies exclusion-by-source (resolved
from the supplied routing-entry ids), the case-insensitive filename
substring match, the status filter (`active` = status ≠ done, `all` = no
filter), the four-key sort, and offset/limit pagination — extensionally
in the spec's stated order (the code runs search before exclusion, but
the two filters commute); the reported `total` is the post-filter
pre-pagination count and `has_more` holds exactly when
`offset + limit < total`. -/
theorem c6_confirmed :
    ∀ (all : List Job) (mappings : List Mapping) (search ft sb so : String)
      (lim off : Nat) (ids : Option (List Nat)),
      getDownloadsData all mappings search ft sb so lim off ids =
        specListPipeline all mappings search ft sb so lim off ids ∧
      (getDownloadsData all mappings search ft sb so lim off ids).total =
        (specFilteredSorted all mappings search ft sb so ids).length ∧
      (getDownloadsData all mappings search ft sb so lim off ids).has_more =
        decide (off + lim <
          (getDownloadsData all mappings search ft sb so lim off ids).total) := by
  intro all mappings search ft sb so lim off ids
  have h := codeFilteredSorted_eq_spec all mappings search ft sb so ids
  refine ⟨?_, ?_, rfl⟩
  · unfold getDownloadsData specListPipeline
    rw [h]
  · unfold getDownloadsData
    rw [h]

/-- A successful lookup in `mapping_by_id` returns a stored mapping with
the requested id. -/
theorem mappingById_mem {mappings : List Mapping} {mid : Nat} {m : Mapping}
    (h : mappingById mappings mid = some m) : m ∈ mappings ∧ m.id = mid := by
  unfold mappingById at h
  have h1 := List.mem_of_find?_eq_some h
  have h2 := List.find?_some h
  exact ⟨List.mem_reverse.mp h1, by simpa using h2⟩

/-- With pairwise-distinct mapping ids, `mapping_by_id` finds each stored
mapping under its own id. -/
theorem mappingById_self {mappings : List Mapping}
    (hnd : (mappings.map Mapping.id).Nodup) {m : Mapping}
    (hm : m ∈ mappings) : mappingById mappings m.id = some m := by
  cases hfind : mappingById mappings m.id with
  | none =>
    unfold mappingById at hfind
    rw [List.find?_eq_none] at hfind
    have := hfind m (List.mem_reverse.mpr hm)
    simp at this
  | some m2 =>
    obtain ⟨hmem2, hid2⟩ := mappingById_mem hfind
    have heq : m2 = m :=
      List.inj_on_of_nodup_map hnd hmem2 hm hid2
    rw [heq]

/-- With distinct mapping ids, a source tag is among the sources resolved
from the secured mapping ids exactly when some stored mapping marks it
secured. -/
theorem securedExcluded_contains {mappings : List Mapping}
    (hnd : (mappings.map Mapping.id).Nodup) (s : String) :
    (specExcludedSources mappings
        (some (getSecuredMappingIds mappings))).contains s =
      mappings.any (fun m => m.is_secured && m.downloaded_from == s) := by
  rw [Bool.eq_iff_iff]
  constructor
  · intro hc
    have hmem : s ∈ specExcludedSources mappings
        (some (getSecuredMappingIds mappings)) := by
      simpa using hc
    simp only [specExcludedSources, List.mem_filterMap,
      getSecuredMappingIds, List.mem_map, List.mem_filter] at hmem
    obtain ⟨mid, ⟨m0, ⟨hm0mem, hm0sec⟩, hm0id⟩, hresolve⟩ := hmem
    cases hres : mappingById mappings mid with
    | none => rw [hres] at hresolve; cases hresolve
    | some m1 =>
      rw [hres] at hresolve
      obtain ⟨hm1mem, hm1id⟩ := mappingById_mem hres
      have hm1m0 : m1 = m0 :=
        List.inj_on_of_nodup_map hnd hm1mem hm0mem (by rw [hm1id, hm0id])
      have hms : m1.downloaded_from = s := Option.some.inj hresolve
      rw [List.any_eq_true]
      refine ⟨m0, hm0mem, ?_⟩
      have hs : m0.downloaded_from = s := by
        rw [← hm1m0]
        exact hms
      simp [hm0sec, hs]
  · intro ha
    rw [List.any_eq_true] at ha
    obtain ⟨m, hmmem, hmp⟩ := ha
    rw [Bool.and_eq_true] at hmp
    obtain ⟨hsec, hbeq⟩ := hmp
    have hs : m.downloaded_from = s := by simpa using hbeq
    have hmemid : m.id ∈ getSecuredMappingIds mappings := by
      simp only [getSecuredMappingIds, List.mem_map, List.mem_filter]
      exact ⟨m, ⟨hmmem, hsec⟩, rfl⟩
    have hres := mappingById_self hnd hmmem
    have hmem : s ∈ specExcludedSources mappings
        (some (getSecuredMappingIds mappings)) := by
      simp only [specExcludedSources, List.mem_filterMap]
      refine ⟨m.id, hmemid, ?_⟩
      rw [hres]
      simp [hs]
    simpa using hmem

/-- A routing entry whose source is access-restricted, as concrete test
data. -/
def sampleSecuredMapping : Mapping :=
  { id := 1, downloaded_from := "xsite", is_secured := true
    folder := none, quality := none }

/-- A job from the access-restricted source, as concrete test data. -/
def sampleSecuredJob : Job :=
  { sampleChatJob with
    id := 4
    message_id := "999"
    downloaded_from := "xsite" }

/-- C8 (counterexample).  The claim says a list call with no explicit
exclusion parameter returns no job from an access-restricted source.  On
the code, a default listing (no `exclude_mapping_ids`) over a store with
one job from a source whose routing entry is secured returns that job,
and counts it in `total`: the hiding only happens when the caller passes
the secured mapping ids. -/
theorem c8_counterexample :
    (getDownloadsData [sampleSecuredJob] [sampleSecuredMapping] "" "all"
      "created_at" "desc" 30 0 none).downloads = [sampleSecuredJob] ∧
    (getDownloadsData [sampleSecuredJob] [sampleSecuredMapping] "" "all"
      "created_at" "desc" 30 0 none).total = 1 :=
  ⟨by decide, by decide⟩

/-- C8 (amended).  Jobs of access-restricted sources are hidden only when
the caller passes the secured routing-entry ids (as served by
`get_secured_mapping_ids`) in `exclude_mapping_ids`; with that parameter
— and pairwise-distinct mapping ids, as the primary key guarantees — the
listing coincides with the listing over a store purged of every job whose
source some routing entry marks secured, so no such job is returned and
`total` excludes them.  A call without the parameter includes them (see
the counterexample). -/
theorem c8_amended :
    ∀ (all : List Job) (mappings : List Mapping) (search ft sb so : String)
      (lim off : Nat), (mappings.map Mapping.id).Nodup →
      getDownloadsData all mappings search ft sb so lim off
          (some (getSecuredMappingIds mappings)) =
        getDownloadsData
          (all.filter (fun d => !(mappings.any (fun m =>
            m.is_secured && m.downloaded_from == d.downloaded_from))))
          mappings search ft sb so lim off none := by
  intro all mappings search ft sb so lim off hnd
  have hinner :
      codeFilteredSorted all mappings search ft sb so
          (some (getSecuredMappingIds mappings)) =
        codeFilteredSorted
          (all.filter (fun d => !(mappings.any (fun m =>
            m.is_secured && m.downloaded_from == d.downloaded_from))))
          mappings search ft sb so none := by
    unfold codeFilteredSorted
    rw [codeExcludedSources_eq, codeExcludedSources_eq,
      searchFilterCode_eq, searchFilterCode_eq,
      exclusionFilterCode_eq, exclusionFilterCode_eq]
    have hpointwise : ∀ d : Job,
        (!(specExcludedSources mappings
            (some (getSecuredMappingIds mappings))).contains
          d.downloaded_from) =
        (!(mappings.any (fun m =>
            m.is_secured && m.downloaded_from == d.downloaded_from))) := by
      intro d
      rw [securedExcluded_contains hnd]
    rw [filter_swap]
    have hleft : (all.filter (fun d =>
        !(specExcludedSources mappings
            (some (getSecuredMappingIds mappings))).contains
          d.downloaded_from)) =
        (all.filter (fun d => !(mappings.any (fun m =>
            m.is_secured && m.downloaded_from == d.downloaded_from)))) :=
      List.filter_congr (fun d _ => hpointwise d)
    rw [hleft]
    have hright : (((all.filter (fun d => !(mappings.any (fun m =>
          m.is_secured && m.downloaded_from == d.downloaded_from)))).filter
            (fun d => containsSub (pyLower search).toList
              (pyLower d.file).toList)).filter
        (fun d => !(specExcludedSources mappings none).contains
          d.downloaded_from)) =
        ((all.filter (fun d => !(mappings.any (fun m =>
          m.is_secured && m.downloaded_from == d.downloaded_from)))).filter
            (fun d => containsSub (pyLower search).toList
              (pyLower d.file).toList)) :=
      List.filter_eq_self.mpr (fun a _ => rfl)
    rw [hright]
  unfold getDownloadsData
  rw [hinner]

/-- C8 (witness): the amended statement over a one-job, one-mapping
store: the secured-ids exclusion empties the listing exactly as a purged
store does. -/
theorem c8_amended_witness :
    getDownloadsData [sampleSecuredJob] [sampleSecuredMapping] "" "all"
        "created_at" "desc" 30 0
        (some (getSecuredMappingIds [sampleSecuredMapping])) =
      getDownloadsData
        ([sampleSecuredJob].filter (fun d =>
          !([sampleSecuredMapping].any (fun m =>
            m.is_secured && m.downloaded_from == d.downloaded_from))))
        [sampleSecuredMapping] "" "all" "created_at" "desc" 30 0 none :=
  c8_amended [sampleSecuredJob] [sampleSecuredMapping] "" "all" "created_at"
    "desc" 30 0 (by decide)

end TGDL
